import Mathlib

/-!
Verification development for the credit-card spend tracker.

The Python sources under `src/` are shallowly embedded: each definition below
mirrors one function (or one branch of a line-scanning loop) of the source,
with Python `None` rendered as `Option.none`, Python ints as `Int`/`Nat`,
Python floats (only ever produced by `float(...)` on exact decimal strings)
as `Rat`, and Python exceptions as `Option`/`Except` failure values.
-/

namespace SpendTracker

/-! ## Python string and number primitives -/

/-- Python whitespace, as recognised by `str.strip()` / `str.split()` for the
ASCII inputs this repository handles. -/
def pyIsSpace (c : Char) : Bool :=
  c == ' ' || c == '\t' || c == '\n' || c == '\r' || c == '\x0b' || c == '\x0c'

/-- Python `str.strip()`. -/
def pyStrip (s : String) : String :=
  ((s.data.dropWhile pyIsSpace).reverse.dropWhile pyIsSpace).reverse.asString

def pySplitWsAux : List Char → List Char → List String
  | [], acc => if acc.isEmpty then [] else [acc.reverse.asString]
  | c :: rest, acc =>
    if pyIsSpace c then
      if acc.isEmpty then pySplitWsAux rest []
      else acc.reverse.asString :: pySplitWsAux rest []
    else pySplitWsAux rest (c :: acc)

/-- Python `str.split()` with no argument: split on whitespace runs, dropping
empty pieces. -/
def pySplit (s : String) : List String := pySplitWsAux s.data []

/-- Python `str.replace(",", "")`. -/
def stripCommas (s : String) : String :=
  (s.data.filter (fun c => c ≠ ',')).asString

/-- Python `str.lower()` (ASCII). -/
def pyLower (s : String) : String := (s.data.map Char.toLower).asString

/-- Python `str.upper()` (ASCII). -/
def pyUpper (s : String) : String := (s.data.map Char.toUpper).asString

def natFromDigits (cs : List Char) : Nat :=
  cs.foldl (fun n c => n * 10 + (c.toNat - 48)) 0

/-- Python `int(s)` on a decimal literal: surrounding whitespace is ignored,
an optional single sign is allowed, and the remainder must be a nonempty run
of digits; anything else raises, rendered here as `none`.  (CPython also
accepts `_` digit grouping, which never occurs in this repository.) -/
def pyIntOfString (s : String) : Option Int :=
  let cs := (pyStrip s).data
  match cs with
  | [] => none
  | c :: rest =>
    if c == '-' then
      if rest ≠ [] && rest.all Char.isDigit then some (-(natFromDigits rest : Int)) else none
    else if c == '+' then
      if rest ≠ [] && rest.all Char.isDigit then some (natFromDigits rest : Int) else none
    else
      if cs.all Char.isDigit then some (natFromDigits cs : Int) else none

/-- Python `str.isdigit()` for the ASCII strings of this repository. -/
def pyIsDigitStr (s : String) : Bool :=
  s.data ≠ [] && s.data.all Char.isDigit

/-- Python `str.isupper()`: there is at least one cased character and every
cased character is uppercase (ASCII). -/
def pyIsUpper (s : String) : Bool :=
  let cased := s.data.filter Char.isAlpha
  cased ≠ [] && cased.all Char.isUpper

def pyIsTitleAux : List Char → Bool → Bool → Bool
  | [], _, seenCased => seenCased
  | c :: rest, prevCased, seenCased =>
    if c.isUpper then
      if prevCased then false else pyIsTitleAux rest true true
    else if c.isLower then
      if prevCased then pyIsTitleAux rest true true else false
    else
      pyIsTitleAux rest false seenCased

/-- Python `str.istitle()` (ASCII): uppercase letters only start cased runs,
lowercase letters only continue them, and at least one cased character occurs. -/
def pyIsTitle (s : String) : Bool := pyIsTitleAux s.data false false

/-- Consume an expected literal character sequence from the front of a list,
returning the remainder on success. -/
def consumeLit : List Char → List Char → Option (List Char)
  | [], cs => some cs
  | _ :: _, [] => none
  | c :: ps, d :: cs => if d == c then consumeLit ps cs else none

def strContainsAux (needle : List Char) : List Char → Bool
  | [] => needle.isEmpty
  | cs@(_ :: rest) =>
    if (consumeLit needle cs).isSome then true else strContainsAux needle rest

/-- Python substring test `needle in hay`. -/
def strContains (hay needle : String) : Bool :=
  strContainsAux needle.data hay.data

def pySplitLinesAux : List Char → List Char → List String
  | [], acc => if acc.isEmpty then [] else [acc.reverse.asString]
  | '\r' :: '\n' :: rest, acc => acc.reverse.asString :: pySplitLinesAux rest []
  | '\n' :: rest, acc => acc.reverse.asString :: pySplitLinesAux rest []
  | '\r' :: rest, acc => acc.reverse.asString :: pySplitLinesAux rest []
  | c :: rest, acc => pySplitLinesAux rest (c :: acc)

/-- Python `str.splitlines()` for the line endings that occur in extracted
page text. -/
def pySplitLines (s : String) : List String := pySplitLinesAux s.data []

/-! ## `src/rewardValidator.py` -/

/-- A Python value that can sit in a reward-summary field: either already an
int or a string (the two shapes `_toIntSafe` distinguishes). -/
inductive PyVal where
  | vInt (n : Int)
  | vStr (s : String)
deriving DecidableEq, Repr

/-- Python `str(v)` for the two value shapes. -/
def pyValStr : PyVal → String
  | .vInt n => toString n
  | .vStr s => s

/-- `_toIntSafe` from `src/rewardValidator.py`: `None` stays `None`, ints pass
through, strings are comma-stripped, stripped and parsed, failure gives `None`. -/
def toIntSafe : Option PyVal → Option Int
  | none => none
  | some (.vInt n) => some n
  | some v => pyIntOfString (pyStrip (stripCommas (pyValStr v)))

/-- The five numeric fields of a reward summary as handed to
`validateRewardSummary` (each may be absent, an int, or a string). -/
structure RewardSummaryInput where
  openingBalance : Option PyVal
  earned : Option PyVal
  redeemed : Option PyVal
  adjustedLapsed : Option PyVal
  closingBalance : Option PyVal
deriving DecidableEq, Repr

/-- `validateRewardSummary` from `src/rewardValidator.py`.  If any of the five
coerced fields is `None` the summary is incomplete and the message names the
missing fields; otherwise `expected = opening + earned - redeemed - adjusted`
is compared with `closing`. -/
def validateRewardSummary (su : RewardSummaryInput) : Bool × String :=
  let opening := toIntSafe su.openingBalance
  let earned := toIntSafe su.earned
  let redeemed := toIntSafe su.redeemed
  let adjusted := toIntSafe su.adjustedLapsed
  let closing := toIntSafe su.closingBalance
  match opening, earned, redeemed, adjusted, closing with
  | some o, some e, some r, some a, some c =>
    let expected := o + e - r - a
    if expected = c then (true, "")
    else
      (false,
        "mismatch: expected_closing=" ++ toString expected ++
        ", actual_closing=" ++ toString c ++
        " [opening=" ++ toString o ++
        ", earned=" ++ toString e ++
        ", redeemed=" ++ toString r ++
        ", adjusted=" ++ toString a ++ "]")
  | _, _, _, _, _ =>
    let missing :=
      (if opening.isNone then ["openingBalance"] else []) ++
      (if earned.isNone then ["earned"] else []) ++
      (if redeemed.isNone then ["redeemed"] else []) ++
      (if adjusted.isNone then ["adjustedLapsed"] else []) ++
      (if closing.isNone then ["closingBalance"] else [])
    (false, "incomplete_fields: " ++ String.intercalate "," missing)

/-! ## `src/dbManager.py` -/

/-- A transaction dict as handed to `insertTransactions` (field absent or
`None` is `none`; amounts are the exact decimal values Python floats carry
here, modelled as rationals). -/
structure TxRecord where
  date : Option String
  description : Option String
  merchant : Option String
  amount : Option Rat
  currency : Option String
  transactionType : Option String
  rewardPoints : Option Int
  cardNumber : Option String
  cardHolderName : Option String
  sourceBank : Option String
  statementDate : Option String
  category : Option String
  subCategory : Option String
  parserUsed : Option String
  importId : Option String
deriving DecidableEq, Repr

/-- A row of the `transactions` table (each column nullable). -/
structure TxRow where
  date : Option String
  description : Option String
  merchant : Option String
  amount : Option Rat
  currency : Option String
  transactionType : Option String
  rewardPoints : Option Int
  cardNumber : Option String
  cardHolderName : Option String
  sourceBank : Option String
  statementDate : Option String
  category : Option String
  subCategory : Option String
  parserUsed : Option String
  importId : Option String
deriving DecidableEq, Repr

/-- Python truthiness of an optional numeric value: `None`, `0` and `0.0` are
falsy. -/
def pyTruthyRat : Option Rat → Bool
  | none => false
  | some q => q != 0

def pyTruthyInt : Option Int → Bool
  | none => false
  | some n => n != 0

/-- The row tuple built for one transaction in `insertTransactions`
(`src/dbManager.py` lines 63-80): `float(tx.get("amount")) if tx.get("amount")
else None`, `int(tx.get("rewardPoints")) if tx.get("rewardPoints") else None`,
`tx.get("parserUsed", "genericPdfParser")`, all other fields passed through. -/
def rowOfTx (tx : TxRecord) : TxRow where
  date := tx.date
  description := tx.description
  merchant := tx.merchant
  amount := if pyTruthyRat tx.amount then tx.amount else none
  currency := tx.currency
  transactionType := tx.transactionType
  rewardPoints := if pyTruthyInt tx.rewardPoints then tx.rewardPoints else none
  cardNumber := tx.cardNumber
  cardHolderName := tx.cardHolderName
  sourceBank := tx.sourceBank
  statementDate := tx.statementDate
  category := tx.category
  subCategory := tx.subCategory
  parserUsed := some (tx.parserUsed.getD "genericPdfParser")
  importId := tx.importId

/-- SQLite comparison of two nullable column values inside a UNIQUE index:
a NULL is distinct from every value, including another NULL. -/
def sqlNonNullEq {α : Type} [DecidableEq α] : Option α → Option α → Bool
  | some x, some y => decide (x = y)
  | _, _ => false

/-- Whether a candidate row collides with an existing row on the
`UNIQUE (date, description, amount, transactionType, cardHolderName)`
constraint of the `transactions` table (SQLite NULL-distinct semantics). -/
def txKeyConflict (newRow oldRow : TxRow) : Bool :=
  sqlNonNullEq newRow.date oldRow.date &&
  sqlNonNullEq newRow.description oldRow.description &&
  sqlNonNullEq newRow.amount oldRow.amount &&
  sqlNonNullEq newRow.transactionType oldRow.transactionType &&
  sqlNonNullEq newRow.cardHolderName oldRow.cardHolderName

def hasTxConflict (tbl : List TxRow) (r : TxRow) : Bool :=
  tbl.any (fun e => txKeyConflict r e)

/-- `insertTransactions` against an explicit table state: `INSERT OR IGNORE`
processes the rows in order, skipping any row that collides with an already
present row on the unique key, and `cur.rowcount` counts only the rows
actually inserted. Returns the new table and that count. -/
def insertTransactionsDb : List TxRow → List TxRecord → List TxRow × Nat
  | tbl, [] => (tbl, 0)
  | tbl, tx :: rest =>
    let r := rowOfTx tx
    if hasTxConflict tbl r then insertTransactionsDb tbl rest
    else
      let p := insertTransactionsDb (tbl ++ [r]) rest
      (p.1, p.2 + 1)

/-- A reward-summary dict as produced by the parsers and handed to
`insertRewardSummary` (numeric fields already ints or absent). -/
structure RewardSummaryRecord where
  statementDate : Option String
  cardNumber : Option String
  cardHolderName : Option String
  openingBalance : Option Int
  earned : Option Int
  redeemed : Option Int
  adjustedLapsed : Option Int
  closingBalance : Option Int
  parserUsed : Option String
  importId : Option String
deriving DecidableEq, Repr

/-- A row of the `rewardPointsSummary` table. -/
structure SummaryRow where
  statementDate : Option String
  cardNumber : Option String
  cardHolderName : Option String
  openingBalance : Option Int
  earned : Option Int
  redeemed : Option Int
  adjustedLapsed : Option Int
  closingBalance : Option Int
  parserUsed : Option String
  importId : Option String
deriving DecidableEq, Repr

/-- The row tuple built for one summary in `insertRewardSummary`
(`src/dbManager.py` lines 108-121): each of the five point fields is guarded
by `if s.get(...)`, so a `0` value is stored as NULL. -/
def rowOfSummary (s : RewardSummaryRecord) : SummaryRow where
  statementDate := s.statementDate
  cardNumber := s.cardNumber
  cardHolderName := s.cardHolderName
  openingBalance := if pyTruthyInt s.openingBalance then s.openingBalance else none
  earned := if pyTruthyInt s.earned then s.earned else none
  redeemed := if pyTruthyInt s.redeemed then s.redeemed else none
  adjustedLapsed := if pyTruthyInt s.adjustedLapsed then s.adjustedLapsed else none
  closingBalance := if pyTruthyInt s.closingBalance then s.closingBalance else none
  parserUsed := some (s.parserUsed.getD "genericPdfParser")
  importId := s.importId

/-- Whether the converted row of a transaction has all five dedup-key columns
non-NULL. -/
def fullTxKey (r : TxRow) : Bool :=
  r.date.isSome && r.description.isSome && r.amount.isSome &&
  r.transactionType.isSome && r.cardHolderName.isSome

/-- A transaction dict whose every field is absent, as the generic parser can
produce (no `transactionType`, no `cardHolderName`). -/
def txAllAbsent : TxRecord where
  date := none
  description := none
  merchant := none
  amount := none
  currency := none
  transactionType := none
  rewardPoints := none
  cardNumber := none
  cardHolderName := none
  sourceBank := none
  statementDate := none
  category := none
  subCategory := none
  parserUsed := none
  importId := none

/-! ## `src/categorizer.py` -/

/-- One `{category, subCategory}` mapping from the categorizer configuration
(either value may be absent, since the code reads them with `.get`). -/
structure CatInfo where
  category : Option String
  subCategory : Option String
deriving DecidableEq, Repr

/-- Stable insertion into a length-descending merchant list: an element goes
after all existing entries with names at least as long, so equal lengths keep
their configuration order, exactly as Python's stable
`sorted(items, key=len, reverse=True)`. -/
def insertMerchantDesc (x : String × CatInfo) :
    List (String × CatInfo) → List (String × CatInfo)
  | [] => [x]
  | h :: t =>
    if x.1.length ≤ h.1.length then h :: insertMerchantDesc x t
    else x :: h :: t

/-- `_setup_categorizer` merchant setup: sort the configured merchant table by
descending name length, stably. -/
def sortMerchants (l : List (String × CatInfo)) : List (String × CatInfo) :=
  l.foldl (fun acc x => insertMerchantDesc x acc) []

/-- One pre-compiled rule of `_setup_categorizer`: the compiled pattern is
modelled by its match predicate on the lowercased description, and the
normalized `{DEBIT, CREDIT}` sub-rules are each a possibly-absent mapping. -/
structure CatRule where
  patMatches : String → Bool
  debit : Option CatInfo
  credit : Option CatInfo

/-- `rule_entry["rule"].get(tx_type)`. -/
def ruleFor (r : CatRule) (ty : String) : Option CatInfo :=
  if ty = "DEBIT" then r.debit
  else if ty = "CREDIT" then r.credit
  else none

/-- The categorizer body of `categorizeTransactions` for one transaction:
lowercased description, uppercased type (defaulting to DEBIT when absent),
first the merchant substring pass over the length-sorted table, then the
first rule whose pattern matches and whose type-specific sub-rule is a
mapping, then the fixed fallback. Returns the assigned
`(category, subCategory)`. -/
def categorizeOne (merchants : List (String × CatInfo)) (rules : List CatRule)
    (desc ty : Option String) : Option String × Option String :=
  let d := pyLower (desc.getD "")
  let t := pyUpper (ty.getD "DEBIT")
  match (sortMerchants merchants).find? (fun p => strContains d (pyLower p.1)) with
  | some m => (m.2.category, m.2.subCategory)
  | none =>
    match (rules.find? (fun r => r.patMatches d && (ruleFor r t).isSome)).bind
        (fun r => ruleFor r t) with
    | some ci => (ci.category, ci.subCategory)
    | none => (some "Uncategorized", some "Needs Review")

/-- A sample configured rule for witnesses: pattern matching any description
containing "upi", defined for DEBIT only. -/
def sampleUpiRule : CatRule where
  patMatches := fun s => strContains s "upi"
  debit := some ⟨some "Food", some "Online"⟩
  credit := none

/-! ## A small backtracking matcher for the regular expressions of the parsers

Each Python regex used by the parsers is transcribed piece by piece into
these combinators.  A matcher takes the remaining character list and returns
every way it can match a front segment, in the order a backtracking regex
engine would try them (greedy pieces longest first, lazy pieces shortest
first, ordered alternation); the first overall solution is the one the engine
reports, so `re.match` is "first solution of the whole pattern at the start
of the string". -/

namespace Rx

/-- A matcher in continuation-passing style: it is given the remaining input
and a continuation receiving the captured value and the rest of the input;
alternatives are explored in backtracking order, moving to the next
alternative whenever the continuation (or the piece itself) yields `none`.
`R` is the result type of the whole pattern. -/
abbrev M (R α : Type) := List Char → (α → List Char → Option R) → Option R

def pureM {R α : Type} (a : α) : M R α := fun cs k => k a cs

def bindM {R α β : Type} (p : M R α) (f : α → M R β) : M R β :=
  fun cs k => p cs (fun a r => f a r k)

def mapRes {R α β : Type} (f : α → β) (p : M R α) : M R β :=
  fun cs k => p cs (fun a r => k (f a) r)

/-- Ordered alternation: the left alternative's solutions first. -/
def altM {R α : Type} (p q : M R α) : M R α :=
  fun cs k => (p cs k) <|> (q cs k)

/-- A literal string in the pattern. -/
def plit {R : Type} (s : String) : M R Unit := fun cs k =>
  match consumeLit s.data cs with
  | some rest => k () rest
  | none => none

/-- Exactly `n` characters of a class, e.g. `\d{2}`. -/
def pexactN {R : Type} : Nat → (Char → Bool) → M R (List Char)
  | 0, _ => pureM []
  | n + 1, f => fun cs k =>
    match cs with
    | [] => none
    | c :: rest =>
      if f c then pexactN n f rest (fun m r => k (c :: m) r) else none

/-- Greedy `X*` over a one-character class: longest match first, giving back
one character at a time on backtracking. -/
def pstarGreedy {R : Type} (f : Char → Bool) : M R (List Char) := fun cs k =>
  match cs with
  | [] => k [] []
  | c :: rest =>
    if f c then (pstarGreedy f rest (fun m r => k (c :: m) r)) <|> k [] (c :: rest)
    else k [] (c :: rest)

/-- Greedy `X+` over a one-character class: longest first, at least one. -/
def pplusGreedy {R : Type} (f : Char → Bool) : M R (List Char) := fun cs k =>
  match cs with
  | [] => none
  | c :: rest =>
    if f c then pstarGreedy f rest (fun m r => k (c :: m) r) else none

/-- Lazy `X*?` over a one-character class: shortest match first. -/
def pstarLazy {R : Type} (f : Char → Bool) : M R (List Char) := fun cs k =>
  (k [] cs) <|>
    match cs with
    | [] => none
    | c :: rest =>
      if f c then pstarLazy f rest (fun m r => k (c :: m) r) else none

/-- Greedy `(...)?`: try the present alternative first. -/
def poptGreedy {R α : Type} (p : M R α) : M R (Option α) := fun cs k =>
  (p cs (fun a r => k (some a) r)) <|> k none cs

/-- `(...){n}`: exactly `n` repetitions of a sub-pattern. -/
def prepN {R α : Type} (p : M R α) : Nat → M R (List α)
  | 0 => pureM []
  | n + 1 => bindM p (fun a => mapRes (fun l => a :: l) (prepN p n))

def prepStarAux {R α : Type} (p : M R α) : Nat → M R (List α)
  | 0 => pureM []
  | n + 1 =>
    altM (bindM p (fun a => mapRes (fun l => a :: l) (prepStarAux p n))) (pureM [])

/-- Greedy `(...)*` of a sub-pattern that consumes at least one character
whenever it succeeds (true of every use below): more repetitions are tried
first; the fuel bounds the repetition count by the input length. -/
def pstarGreedySub {R α : Type} (p : M R α) : M R (List α) := fun cs =>
  prepStarAux p (cs.length + 1) cs

/-- `re.match` without end anchor: first solution at the start. -/
def runAtStart {α : Type} (p : M α α) (s : String) : Option α :=
  p s.data (fun a _ => some a)

/-- `re.match` of a pattern ending in `$`: first solution consuming the whole
string. -/
def runWhole {α : Type} (p : M α α) (s : String) : Option α :=
  p s.data (fun a r => if r.isEmpty then some a else none)

def searchAux {α : Type} (p : M α α) : List Char → Option α
  | [] => p [] (fun a _ => some a)
  | cs@(_ :: rest) => (p cs (fun a _ => some a)) <|> searchAux p rest

/-- `re.search`: leftmost start position with a solution, first solution
there. -/
def runSearch {α : Type} (p : M α α) (s : String) : Option α :=
  searchAux p s.data

/-- The `\d` class. -/
def isDigitC (c : Char) : Bool := c.isDigit

/-- The `\s` class. -/
def isSpaceC (c : Char) : Bool := pyIsSpace c

/-- The `\w` class (ASCII). -/
def isWordC (c : Char) : Bool := c.isAlphanum || c == '_'

end Rx

/-! ## `src/parsers/sbiParser.py` and `src/parsers/sbiRewardsHelper.py` -/

/-- The SBI reward-summary line pattern `^(\d+[ ,]*){5}$` from
`src/parsers/sbiParser.py` line 85, applied to the comma-stripped line:
five repetitions of one-or-more digits followed by optional spaces/commas,
anchored at both ends. -/
def sbiRewardLinePat {R : Type} : Rx.M R (List (List Char × List Char)) :=
  Rx.prepN
    (Rx.bindM (Rx.pplusGreedy Rx.isDigitC)
      (fun d => Rx.mapRes (fun s => (d, s))
        (Rx.pstarGreedy (fun c => c == ' ' || c == ','))))
    5

def sbiRewardLineMatches (s : String) : Bool :=
  (Rx.runWhole sbiRewardLinePat s).isSome

/-- The five reward fields tracked while scanning an SBI statement, in the
unpacking order of `opening, earned, redeemed, closing, lapsed = parts`. -/
structure SbiRewardState where
  opening : Option Int
  earned : Option Int
  redeemed : Option Int
  closing : Option Int
  lapsed : Option Int
deriving DecidableEq, Repr

/-- `[int(x.replace(",", "")) for x in line.split()]`; a failing `int` raises,
collapsing the whole list to `none` (the except branch). -/
def lineIntParts (line : String) : Option (List Int) :=
  (pySplit line).mapM (fun t => pyIntOfString (stripCommas t))

/-- The reward-summary branch of the SBI line scan (`sbiParser.py` lines
84-96): if the comma-stripped line matches the five-number pattern and the
split yields exactly five ints, they are unpacked as
`opening, earned, redeemed, closing, lapsed`; otherwise the state is kept. -/
def sbiRewardUpdate (st : SbiRewardState) (line : String) : SbiRewardState :=
  if sbiRewardLineMatches (stripCommas line) then
    match lineIntParts line with
    | some [o, e, r, c, l] => ⟨some o, some e, some r, some c, some l⟩
    | _ => st
  else st

/-- The summary dict appended at the end of `sbiParser.parse` (lines 147-158):
`adjustedLapsed` receives the `lapsed` variable and `closingBalance` the
`closing` variable. -/
def mkSbiMainSummary (st : SbiRewardState)
    (stmtDate cardNum holder importId : Option String) : RewardSummaryRecord where
  statementDate := stmtDate
  cardNumber := cardNum
  cardHolderName := holder
  openingBalance := st.opening
  earned := st.earned
  redeemed := st.redeemed
  adjustedLapsed := st.lapsed
  closingBalance := st.closing
  parserUsed := some "sbiParser"
  importId := importId

def splitOnSubFuel (sep : List Char) : Nat → List Char → List Char → List (List Char)
  | _, [], acc => [acc.reverse]
  | 0, cs, acc => [acc.reverse ++ cs]
  | n + 1, cs, acc =>
    match consumeLit sep cs with
    | some rest => acc.reverse :: splitOnSubFuel sep n rest []
    | none =>
      match cs with
      | [] => [acc.reverse]
      | c :: rest => splitOnSubFuel sep n rest (c :: acc)

/-- Python `s.split(sep)[-1]` for a nonempty separator. -/
def pySplitSubLast (s sep : String) : String :=
  (((splitOnSubFuel sep.data s.data.length s.data []).getLast?).getD []).asString

/-- One line of `parseRewards` from `src/parsers/sbiRewardsHelper.py`: five
whitespace-separated tokens, the first two all digits; the try block parses
`opening, earned, redeemed, adjustedLapsed` from the first four tokens and
maps a 5th token `NONE` (case-insensitive) to closing balance 0; any
exception in the try block — including `statementPeriod` being `None` when
`.split("to")` is taken — skips the line.  `fresh` is the uuid4 hex the
helper synthesizes for this summary. -/
def sbiHelperLine (period card holder : Option String) (fresh : String)
    (line : String) : Option RewardSummaryRecord :=
  match pySplit (pyStrip line) with
  | [t0, t1, t2, t3, t4] =>
    if pyIsDigitStr t0 && pyIsDigitStr t1 then
      match pyIntOfString t0, pyIntOfString t1, pyIntOfString t2,
        pyIntOfString t3,
        (if pyUpper t4 = "NONE" then some 0 else pyIntOfString t4), period with
      | some o, some e, some r, some a, some c, some p =>
        some { statementDate := some (pyStrip (pySplitSubLast p "to")),
               cardNumber := card, cardHolderName := holder,
               openingBalance := some o, earned := some e, redeemed := some r,
               adjustedLapsed := some a, closingBalance := some c,
               parserUsed := some "sbiParser", importId := some fresh }
      | _, _, _, _, _, _ => none
    else none
  | _ => none

/-- `parseRewards`: the first line whose try block succeeds produces the one
summary (the loop breaks after the append); failing lines are skipped. -/
def sbiParseRewards (lines : List String) (period card holder : Option String)
    (fresh : String) : List RewardSummaryRecord :=
  match lines.findSome? (sbiHelperLine period card holder fresh) with
  | some s => [s]
  | none => []

/-! ## `src/parsers/iciciParser.py` -/

/-- The integer and fractional digit runs of a decimal literal. -/
def decimalParts (s : String) : Option (List Char × List Char) :=
  match splitOnSubFuel ['.'] s.data.length s.data [] with
  | [ip] =>
    if !ip.isEmpty && ip.all Char.isDigit then some (ip, []) else none
  | [ip, fp] =>
    if !ip.isEmpty && ip.all Char.isDigit && fp.all Char.isDigit then
      some (ip, fp)
    else none
  | _ => none

/-- Python `float(s)` on the decimal strings produced by the parsers after
comma-stripping: an integer part and an optional fractional part, kept exact
as a rational. -/
def ratOfDecimalStr (s : String) : Option Rat :=
  (decimalParts s).map (fun pr =>
    ((natFromDigits pr.1 : Int) : Rat) +
      ((natFromDigits pr.2 : Int) : Rat) / ((10 : Rat) ^ pr.2.length))

/-- The captured groups of the ICICI transaction-row pattern
`(\d{2}/\d{2}/\d{4})\s+(\d+)\s+(.*?)\s+(\d+)\s+([\d,]+\.\d{2})(?:\s+(CR))?`:
date, reference, description, merchant code, amount text, and whether the
optional trailing `CR` group matched. -/
structure IciciGroups where
  date : String
  reference : String
  description : String
  merchantCode : String
  amountText : String
  crFlag : Bool
deriving DecidableEq, Repr

/-- The ICICI transaction-row pattern, transcribed piece by piece
(`src/parsers/iciciParser.py` lines 59-62). -/
def iciciLinePat {R : Type} : Rx.M R IciciGroups :=
  Rx.bindM (Rx.pexactN 2 Rx.isDigitC) fun d1 =>
  Rx.bindM (Rx.plit "/") fun _ =>
  Rx.bindM (Rx.pexactN 2 Rx.isDigitC) fun d2 =>
  Rx.bindM (Rx.plit "/") fun _ =>
  Rx.bindM (Rx.pexactN 4 Rx.isDigitC) fun d3 =>
  Rx.bindM (Rx.pplusGreedy Rx.isSpaceC) fun _ =>
  Rx.bindM (Rx.pplusGreedy Rx.isDigitC) fun ref =>
  Rx.bindM (Rx.pplusGreedy Rx.isSpaceC) fun _ =>
  Rx.bindM (Rx.pstarLazy (fun c => c != '\n')) fun desc =>
  Rx.bindM (Rx.pplusGreedy Rx.isSpaceC) fun _ =>
  Rx.bindM (Rx.pplusGreedy Rx.isDigitC) fun code =>
  Rx.bindM (Rx.pplusGreedy Rx.isSpaceC) fun _ =>
  Rx.bindM (Rx.pplusGreedy (fun c => Rx.isDigitC c || c == ',')) fun amtInt =>
  Rx.bindM (Rx.plit ".") fun _ =>
  Rx.bindM (Rx.pexactN 2 Rx.isDigitC) fun amtFrac =>
  Rx.mapRes
    (fun cr =>
      { date := (d1 ++ '/' :: d2 ++ '/' :: d3).asString
        reference := ref.asString
        description := desc.asString
        merchantCode := code.asString
        amountText := (amtInt ++ '.' :: amtFrac).asString
        crFlag := cr.isSome })
    (Rx.poptGreedy
      (Rx.bindM (Rx.pplusGreedy Rx.isSpaceC) (fun _ => Rx.plit "CR")))

/-- `re.match` of the ICICI transaction pattern against one stripped line. -/
def iciciMatchLine (line : String) : Option IciciGroups :=
  Rx.runAtStart iciciLinePat line

/-- An ICICI transaction dict as appended by `iciciParser.parse`. -/
structure IciciTx where
  date : String
  referenceNumber : String
  description : String
  merchantCode : String
  amount : Option Rat
  currency : String
  transactionType : String
  cardNumber : String
  cardHolderName : Option String
  sourceBank : String
  statementDate : Option String
  category : Option String
  subCategory : Option String
  parserUsed : String
  importId : Option String
deriving DecidableEq, Repr

/-- The transaction built for a matching ICICI line when a current card
number is in scope (`iciciParser.py` lines 63-89): description stripped,
amount comma-stripped and converted by `float`, type CREDIT exactly when the
optional trailing `CR` group matched, else DEBIT. -/
def iciciTxOfLine (card : String) (stmtDate : Option String) (line : String) :
    Option IciciTx :=
  (iciciMatchLine line).map fun g =>
    { date := g.date
      referenceNumber := g.reference
      description := pyStrip g.description
      merchantCode := g.merchantCode
      amount := ratOfDecimalStr (stripCommas g.amountText)
      currency := "INR"
      transactionType := if g.crFlag then "CREDIT" else "DEBIT"
      cardNumber := card
      cardHolderName := none
      sourceBank := "ICICI"
      statementDate := stmtDate
      category := none
      subCategory := none
      parserUsed := "iciciParser"
      importId := none }

/-! ## `src/parsers/hdfcParser.py` -/

/-- `EXCLUDE_HEADERS` from `hdfcParser.py`. -/
def hdfcExcludeHeaders : List String :=
  ["DOMESTIC TRANSACTIONS", "INTERNATIONAL TRANSACTIONS", "REWARD POINTS",
   "STATEMENT", "PAYMENT DUE", "CREDIT SUMMARY", "POINTS EARNED",
   "TOTAL CREDIT LIMIT", "IMPORTANT INFORMATION", "DETAILS", "NEW DELHI"]

/-- `looks_like_cardholder`: not an excluded header, no `/`, `:` or `|`, no
digit, and either an ALL-CAPS short line (primary) or a Title-Case short line
(add-on), at most 4 words either way. -/
def looksLikeCardholder (line : String) : Bool :=
  let clean := pyStrip line
  let upper := pyUpper clean
  if hdfcExcludeHeaders.contains upper then false
  else if clean.data.any (fun c => c == '/' || c == ':' || c == '|') then false
  else if clean.data.any Char.isDigit then false
  else if pyIsUpper clean && (pySplit clean).length ≤ 4 then true
  else if pyIsTitle clean && (pySplit clean).length ≤ 4 then true
  else false

/-- The statement-date pattern
`(Statement|Billing) Date\s+(\d{1,2}\s\w+,\s\d{4})` (searched), capturing the
date group. -/
def hdfcStmtDatePat {R : Type} : Rx.M R String :=
  Rx.bindM (Rx.altM (Rx.plit "Statement") (Rx.plit "Billing")) fun _ =>
  Rx.bindM (Rx.plit " Date") fun _ =>
  Rx.bindM (Rx.pplusGreedy Rx.isSpaceC) fun _ =>
  Rx.bindM (Rx.altM (Rx.pexactN 2 Rx.isDigitC) (Rx.pexactN 1 Rx.isDigitC)) fun dd =>
  Rx.bindM (Rx.pexactN 1 Rx.isSpaceC) fun s1 =>
  Rx.bindM (Rx.pplusGreedy Rx.isWordC) fun mon =>
  Rx.bindM (Rx.plit ",") fun _ =>
  Rx.bindM (Rx.pexactN 1 Rx.isSpaceC) fun s2 =>
  Rx.mapRes (fun yy => (dd ++ s1 ++ mon ++ ',' :: (s2 ++ yy)).asString)
    (Rx.pexactN 4 Rx.isDigitC)

/-- The transaction pattern `(\d{2}/\d{2}/\d{4}).*?C\s([\d,]+\.\d{2})`
(matched at the start), capturing date and amount text. -/
def hdfcTxPat {R : Type} : Rx.M R (String × String) :=
  Rx.bindM (Rx.pexactN 2 Rx.isDigitC) fun d1 =>
  Rx.bindM (Rx.plit "/") fun _ =>
  Rx.bindM (Rx.pexactN 2 Rx.isDigitC) fun d2 =>
  Rx.bindM (Rx.plit "/") fun _ =>
  Rx.bindM (Rx.pexactN 4 Rx.isDigitC) fun d3 =>
  Rx.bindM (Rx.pstarLazy (fun c => c != '\n')) fun _ =>
  Rx.bindM (Rx.plit "C") fun _ =>
  Rx.bindM (Rx.pexactN 1 Rx.isSpaceC) fun _ =>
  Rx.bindM (Rx.pplusGreedy (fun c => Rx.isDigitC c || c == ',')) fun ai =>
  Rx.bindM (Rx.plit ".") fun _ =>
  Rx.mapRes
    (fun af =>
      ((d1 ++ '/' :: d2 ++ '/' :: d3).asString, (ai ++ '.' :: af).asString))
    (Rx.pexactN 2 Rx.isDigitC)

/-- The inline reward-points pattern `\+\s*(\d+)\s*C\s` (searched), capturing
the digits. -/
def hdfcRpPat {R : Type} : Rx.M R (List Char) :=
  Rx.bindM (Rx.plit "+") fun _ =>
  Rx.bindM (Rx.pstarGreedy Rx.isSpaceC) fun _ =>
  Rx.bindM (Rx.pplusGreedy Rx.isDigitC) fun ds =>
  Rx.bindM (Rx.pstarGreedy Rx.isSpaceC) fun _ =>
  Rx.bindM (Rx.plit "C") fun _ =>
  Rx.mapRes (fun _ => ds) (Rx.pexactN 1 Rx.isSpaceC)

/-- One `\d{1,3}(,\d{3})*` number token of the four-number reward line. -/
def hdfcNumTokPat {R : Type} : Rx.M R Unit :=
  Rx.bindM
    (Rx.altM (Rx.pexactN 3 Rx.isDigitC)
      (Rx.altM (Rx.pexactN 2 Rx.isDigitC) (Rx.pexactN 1 Rx.isDigitC))) fun _ =>
  Rx.mapRes (fun _ => ())
    (Rx.pstarGreedySub (Rx.bindM (Rx.plit ",") (fun _ => Rx.pexactN 3 Rx.isDigitC)))

/-- The four-number reward line pattern
`^\d{1,3}(,\d{3})*\s+\d{1,3}(,\d{3})*\s+\d{1,3}(,\d{3})*\s+\d{1,3}(,\d{3})*$`. -/
def hdfcFourNumPat {R : Type} : Rx.M R Unit :=
  Rx.bindM hdfcNumTokPat fun _ =>
  Rx.bindM (Rx.pplusGreedy Rx.isSpaceC) fun _ =>
  Rx.bindM hdfcNumTokPat fun _ =>
  Rx.bindM (Rx.pplusGreedy Rx.isSpaceC) fun _ =>
  Rx.bindM hdfcNumTokPat fun _ =>
  Rx.bindM (Rx.pplusGreedy Rx.isSpaceC) fun _ =>
  hdfcNumTokPat

def hdfcFourNumMatches (line : String) : Bool :=
  (Rx.runWhole hdfcFourNumPat line).isSome

/-- An HDFC transaction dict as appended by `hdfcParser.parse`. -/
structure HdfcTx where
  date : String
  description : String
  merchant : Option String
  amount : Option Rat
  currency : String
  transactionType : String
  rewardPoints : Option Int
  cardNumber : Option String
  cardHolderName : Option String
  sourceBank : String
  statementDate : Option String
  category : Option String
  subCategory : Option String
  parserUsed : String
  importId : Option String
deriving DecidableEq, Repr

/-- The scan state of `hdfcParser.parse`. -/
structure HdfcState where
  currentCardHolder : Option String
  primaryCardHolder : Option String
  statementDate : Option String
  opening : Option Int
  earned : Option Int
  redeemed : Option Int
  adjusted : Option Int
  closing : Option Int
  txs : List HdfcTx
deriving DecidableEq, Repr

def hdfcInit : HdfcState :=
  ⟨none, none, none, none, none, none, none, none, []⟩

/-- Statement-date branch of the line scan. -/
def hdfcStepStmt (st : HdfcState) (line : String) : HdfcState :=
  match Rx.runSearch hdfcStmtDatePat line with
  | some d => { st with statementDate := some d }
  | none => st

/-- Cardholder branch: the first ALL-CAPS candidate becomes (and stays) the
primary cardholder, every candidate becomes the current cardholder. -/
def hdfcStepName (st : HdfcState) (line : String) : HdfcState :=
  if looksLikeCardholder line then
    let st1 :=
      if pyIsUpper line && st.primaryCardHolder.isNone then
        { st with primaryCardHolder := some line }
      else st
    { st1 with currentCardHolder := some line }
  else st

/-- Transaction branch: on a date-then-`C`-amount line, append a transaction
with inline reward points when `\+\s*(\d+)\s*C\s` is found, CREDIT when the
line contains `"+ C"`, and the text after the first `|` (stripped) as the
description when a `|` occurs. -/
def hdfcStepTx (st : HdfcState) (line : String) : HdfcState :=
  match Rx.runAtStart hdfcTxPat line with
  | some (d, amtText) =>
    let rp := (Rx.runSearch hdfcRpPat line).map (fun ds => (natFromDigits ds : Int))
    let ty := if strContains line "+ C" then "CREDIT" else "DEBIT"
    let desc :=
      if strContains line "|" then
        pyStrip
          ((((splitOnSubFuel ['|'] line.data.length line.data []).get? 1).getD
            []).asString)
      else line
    { st with
      txs := st.txs ++
        [{ date := d, description := desc, merchant := none,
           amount := ratOfDecimalStr (stripCommas amtText), currency := "INR",
           transactionType := ty, rewardPoints := rp, cardNumber := none,
           cardHolderName := st.currentCardHolder, sourceBank := "HDFC",
           statementDate := st.statementDate, category := none,
           subCategory := none, parserUsed := "hdfcParser", importId := none }] }
  | none => st

/-- Reward-summary branch: a `"Points Earned"` line supplies the closing
balance from its first token; otherwise a four-number line supplies
opening, earned, redeemed, adjusted; parse failures leave the state as is. -/
def hdfcStepRewards (st : HdfcState) (line : String) : HdfcState :=
  if strContains line "Points Earned" then
    match (pySplit line).head? with
    | some tok =>
      match pyIntOfString (stripCommas tok) with
      | some n => { st with closing := some n }
      | none => st
    | none => st
  else if hdfcFourNumMatches line then
    match lineIntParts line with
    | some [o, e, r, a] =>
      { st with opening := some o, earned := some e, redeemed := some r,
                adjusted := some a }
    | _ => st
  else st

/-- One line of the HDFC scan: the line is stripped, then the four branches
run in source order. -/
def hdfcStep (st : HdfcState) (rawLine : String) : HdfcState :=
  let line := pyStrip rawLine
  hdfcStepRewards (hdfcStepTx (hdfcStepName (hdfcStepStmt st line) line) line) line

def hdfcScan (lines : List String) : HdfcState := lines.foldl hdfcStep hdfcInit

/-- The post-scan emission of `hdfcParser.parse` (lines 167-182): the primary
cardholder falls back to the literal `"PRIMARY CARDHOLDER"`, and a summary is
appended only when opening, earned, redeemed, adjusted and closing are all
resolved. -/
def hdfcSummaries (st : HdfcState) : List RewardSummaryRecord :=
  let primary := st.primaryCardHolder.getD "PRIMARY CARDHOLDER"
  match st.opening, st.earned, st.redeemed, st.adjusted, st.closing with
  | some o, some e, some r, some a, some c =>
    [{ statementDate := st.statementDate, cardNumber := none,
       cardHolderName := some primary, openingBalance := some o,
       earned := some e, redeemed := some r, adjustedLapsed := some a,
       closingBalance := some c, parserUsed := some "hdfcParser",
       importId := none }]
  | _, _, _, _, _ => []

/-- `hdfcParser.parse` on the flattened page lines. -/
def hdfcParse (lines : List String) : List HdfcTx × List RewardSummaryRecord :=
  ((hdfcScan lines).txs, hdfcSummaries (hdfcScan lines))

/-! ## Page handling: `auParser.py` versus the other parsers (C6) -/

/-- A PDF as the parsers see it: per page, the result of
`page.extract_text()` — `none` when the page has no extractable text. -/
abbrev PdfPages := List (Option String)

/-- The page loop shared by the HDFC, SBI, ICICI and generic parsers:
`text = page.extract_text(); if not text: continue` — a page whose text is
`None` (or empty) is logged and skipped, and the remaining pages' lines are
still processed, in order. -/
def pagesLinesSkippingBlank : PdfPages → List String
  | [] => []
  | none :: rest => pagesLinesSkippingBlank rest
  | some t :: rest =>
    if t = "" then pagesLinesSkippingBlank rest
    else pySplitLines t ++ pagesLinesSkippingBlank rest

/-- The AU parser's page loop (`auParser.py` lines 31-33):
`all_text.extend(page.extract_text().splitlines())` with no `None` guard — a
page whose `extract_text()` is `None` raises `AttributeError`
(`NoneType` has no `splitlines`), aborting the whole parse. -/
def auCollectAllText : PdfPages → Except String (List String)
  | [] => .ok []
  | none :: _ => .error "AttributeError"
  | some t :: rest =>
    match auCollectAllText rest with
    | .ok ls => .ok (pySplitLines t ++ ls)
    | .error e => .error e

/-! # Theorems -/

/-- String append reassociation, used to expose the `"mismatch"` head of the
validator message. -/
theorem strAppend_assoc (a b c : String) : a ++ b ++ c = a ++ (b ++ c) := by
  cases a with
  | mk xs =>
    cases b with
    | mk ys =>
      cases c with
      | mk zs =>
        show String.mk ((xs ++ ys) ++ zs) = String.mk (xs ++ (ys ++ zs))
        rw [List.append_assoc]

/-- C1: for all integers `o, e, r, a`, validating a summary whose closing
balance is `o + e - r - a` yields `(true, "")`; for any closing balance `c`
different from `o + e - r - a`, validation yields `(false, m)` where `m` is
the mismatch message carrying the expected and actual closing values and the
four inputs, and `m` starts with the substring `"mismatch"`. -/
theorem c1_reconciliation_correct (o e r a : Int) :
    validateRewardSummary
      ⟨some (.vInt o), some (.vInt e), some (.vInt r), some (.vInt a),
        some (.vInt (o + e - r - a))⟩ = (true, "") ∧
    ∀ c : Int, c ≠ o + e - r - a →
      validateRewardSummary
        ⟨some (.vInt o), some (.vInt e), some (.vInt r), some (.vInt a),
          some (.vInt c)⟩ =
        (false,
          "mismatch: expected_closing=" ++ toString (o + e - r - a) ++
          ", actual_closing=" ++ toString c ++
          " [opening=" ++ toString o ++
          ", earned=" ++ toString e ++
          ", redeemed=" ++ toString r ++
          ", adjusted=" ++ toString a ++ "]") ∧
      ∃ rest,
        ("mismatch: expected_closing=" ++ toString (o + e - r - a) ++
          ", actual_closing=" ++ toString c ++
          " [opening=" ++ toString o ++
          ", earned=" ++ toString e ++
          ", redeemed=" ++ toString r ++
          ", adjusted=" ++ toString a ++ "]") = "mismatch" ++ rest := by
  refine ⟨?_, ?_⟩
  · simp [validateRewardSummary, toIntSafe]
  · intro c hc
    refine ⟨?_, ?_⟩
    · simp only [validateRewardSummary, toIntSafe]
      rw [if_neg (fun h => hc h.symm)]
    · refine ⟨": expected_closing=" ++ (toString (o + e - r - a) ++
        (", actual_closing=" ++ (toString c ++
        (" [opening=" ++ (toString o ++
        (", earned=" ++ (toString e ++
        (", redeemed=" ++ (toString r ++
        (", adjusted=" ++ (toString a ++ "]"))))))))))), ?_⟩
      have h1 : ("mismatch: expected_closing=" : String) =
          "mismatch" ++ ": expected_closing=" := rfl
      rw [h1]
      simp only [strAppend_assoc]

/-- C1 witness: the theorem instantiated at `o = 1, e = 2, r = 3, a = 4`
(`expected = -4`) and the perturbed closing balance `0`. -/
theorem c1_reconciliation_correct_witness :
    validateRewardSummary
      ⟨some (.vInt 1), some (.vInt 2), some (.vInt 3), some (.vInt 4),
        some (.vInt (-4))⟩ = (true, "") ∧
    validateRewardSummary
      ⟨some (.vInt 1), some (.vInt 2), some (.vInt 3), some (.vInt 4),
        some (.vInt 0)⟩ =
      (false,
        "mismatch: expected_closing=" ++ toString (-4 : Int) ++
        ", actual_closing=" ++ toString (0 : Int) ++
        " [opening=" ++ toString (1 : Int) ++
        ", earned=" ++ toString (2 : Int) ++
        ", redeemed=" ++ toString (3 : Int) ++
        ", adjusted=" ++ toString (4 : Int) ++ "]") :=
  ⟨by
      have h := (c1_reconciliation_correct 1 2 3 4).1
      simpa using h,
    by
      have h := ((c1_reconciliation_correct 1 2 3 4).2 0 (by decide)).1
      simpa using h⟩

/-- C2: a summary all five of whose numeric fields coerce to `None` (absent or
unparseable) is rejected with the incomplete-fields message listing all five
field names; in particular the empty summary is. -/
theorem c2_incomplete_detection :
    validateRewardSummary ⟨none, none, none, none, none⟩ =
      (false,
        "incomplete_fields: openingBalance,earned,redeemed,adjustedLapsed,closingBalance") ∧
    ∀ su : RewardSummaryInput,
      toIntSafe su.openingBalance = none →
      toIntSafe su.earned = none →
      toIntSafe su.redeemed = none →
      toIntSafe su.adjustedLapsed = none →
      toIntSafe su.closingBalance = none →
      validateRewardSummary su =
        (false,
          "incomplete_fields: openingBalance,earned,redeemed,adjustedLapsed,closingBalance") := by
  refine ⟨by decide, ?_⟩
  intro su h1 h2 h3 h4 h5
  simp [validateRewardSummary, h1, h2, h3, h4, h5]
  rfl

/-- C2 witness: a summary whose five fields are a mix of unparseable strings
and absent values. -/
theorem c2_incomplete_detection_witness :
    validateRewardSummary
      ⟨some (.vStr "abc"), some (.vStr ""), some (.vStr "12x"), none,
        some (.vStr "--")⟩ =
      (false,
        "incomplete_fields: openingBalance,earned,redeemed,adjustedLapsed,closingBalance") :=
  c2_incomplete_detection.2
    ⟨some (.vStr "abc"), some (.vStr ""), some (.vStr "12x"), none,
      some (.vStr "--")⟩
    (by decide) (by decide) (by decide) (by decide) (by decide)

/-- Inserting never removes rows: the resulting table extends the input
table. -/
theorem insertTransactionsDb_table_ext (X : List TxRecord) :
    ∀ tbl : List TxRow, ∃ ext, (insertTransactionsDb tbl X).1 = tbl ++ ext := by
  induction X with
  | nil => intro tbl; exact ⟨[], by simp [insertTransactionsDb]⟩
  | cons tx rest ih =>
    intro tbl
    by_cases h : hasTxConflict tbl (rowOfTx tx) = true
    · obtain ⟨ext, hext⟩ := ih tbl
      exact ⟨ext, by simp [insertTransactionsDb, h, hext]⟩
    · obtain ⟨ext, hext⟩ := ih (tbl ++ [rowOfTx tx])
      refine ⟨[rowOfTx tx] ++ ext, ?_⟩
      simp [insertTransactionsDb, h, hext, List.append_assoc]

theorem hasTxConflict_mono (tbl ext : List TxRow) (r : TxRow)
    (h : hasTxConflict tbl r = true) : hasTxConflict (tbl ++ ext) r = true := by
  unfold hasTxConflict at h ⊢
  rw [List.any_append, h, Bool.true_or]

theorem txKeyConflict_self (r : TxRow) (h : fullTxKey r = true) :
    txKeyConflict r r = true := by
  simp only [fullTxKey, Bool.and_eq_true, Option.isSome_iff_exists] at h
  obtain ⟨⟨⟨⟨⟨d, hd⟩, ⟨ds, hds⟩⟩, ⟨a, ha⟩⟩, ⟨t, ht⟩⟩, ⟨n, hn⟩⟩ := h
  simp [txKeyConflict, sqlNonNullEq, hd, hds, ha, ht, hn]

/-- After inserting a batch, every batch member with a fully non-NULL dedup
key collides with some row of the resulting table. -/
theorem conflict_after_insert (X : List TxRecord) :
    ∀ (tbl : List TxRow) (tx : TxRecord), tx ∈ X →
      fullTxKey (rowOfTx tx) = true →
      hasTxConflict (insertTransactionsDb tbl X).1 (rowOfTx tx) = true := by
  induction X with
  | nil => intro tbl tx hmem; simp at hmem
  | cons y rest ih =>
    intro tbl tx hmem hfull
    rcases List.mem_cons.mp hmem with heq | hmem2
    · subst heq
      by_cases h : hasTxConflict tbl (rowOfTx tx) = true
      · obtain ⟨ext, hext⟩ := insertTransactionsDb_table_ext rest tbl
        rw [show (insertTransactionsDb tbl (tx :: rest)).1 =
            (insertTransactionsDb tbl rest).1 from by
          simp [insertTransactionsDb, h]]
        rw [hext]
        exact hasTxConflict_mono tbl ext _ h
      · obtain ⟨ext, hext⟩ :=
          insertTransactionsDb_table_ext rest (tbl ++ [rowOfTx tx])
        rw [show (insertTransactionsDb tbl (tx :: rest)).1 =
            (insertTransactionsDb (tbl ++ [rowOfTx tx]) rest).1 from by
          simp [insertTransactionsDb, h]]
        rw [hext]
        unfold hasTxConflict
        rw [List.any_append, List.any_append]
        simp [txKeyConflict_self _ hfull]
    · by_cases h : hasTxConflict tbl (rowOfTx y) = true
      · rw [show (insertTransactionsDb tbl (y :: rest)).1 =
            (insertTransactionsDb tbl rest).1 from by
          simp [insertTransactionsDb, h]]
        exact ih tbl tx hmem2 hfull
      · rw [show (insertTransactionsDb tbl (y :: rest)).1 =
            (insertTransactionsDb (tbl ++ [rowOfTx y]) rest).1 from by
          simp [insertTransactionsDb, h]]
        exact ih _ tx hmem2 hfull

/-- If every batch member already collides with the table, the insert is a
no-op returning count 0. -/
theorem insertTransactionsDb_all_conflict (X : List TxRecord) :
    ∀ tbl : List TxRow,
      (∀ tx ∈ X, hasTxConflict tbl (rowOfTx tx) = true) →
      insertTransactionsDb tbl X = (tbl, 0) := by
  induction X with
  | nil => intro tbl _; simp [insertTransactionsDb]
  | cons y rest ih =>
    intro tbl hall
    have hy := hall y (List.mem_cons_self y rest)
    rw [show insertTransactionsDb tbl (y :: rest) =
        insertTransactionsDb tbl rest from by
      simp [insertTransactionsDb, hy]]
    exact ih tbl (fun tx h => hall tx (List.mem_cons_of_mem _ h))

/-- C3 counterexample: the claim fails as stated.  For the concrete set
`X = [txAllAbsent]` (every dedup-key field NULL, as the generic parser emits),
the first insert stores the row, yet a second `insertTransactions(X)` inserts
it again and returns 1, not 0: SQLite UNIQUE treats NULLs as pairwise
distinct, so NULL-keyed duplicates are not ignored. -/
theorem c3_idempotent_dedup_counterexample :
    (insertTransactionsDb [] [txAllAbsent]).1 = [rowOfTx txAllAbsent] ∧
    (insertTransactionsDb (insertTransactionsDb [] [txAllAbsent]).1
      [txAllAbsent]).2 = 1 := by
  decide

/-- C3 (amended): re-inserting a transaction set is idempotent and the second
call returns 0 provided every record's five dedup-key columns
(date, description, amount, transactionType, cardHolderName) are non-NULL
after the row conversion; with a NULL key column (absent field, or a 0 amount
coerced to NULL) SQLite re-inserts the duplicate. -/
theorem c3_idempotent_dedup_amended (tbl : List TxRow) (X : List TxRecord)
    (hfull : ∀ tx ∈ X, fullTxKey (rowOfTx tx) = true) :
    insertTransactionsDb (insertTransactionsDb tbl X).1 X =
      ((insertTransactionsDb tbl X).1, 0) := by
  apply insertTransactionsDb_all_conflict
  intro tx hmem
  exact conflict_after_insert X tbl tx hmem (hfull tx hmem)

/-- C3 witness: a concrete fully keyed transaction, inserted twice from the
empty table; the second insert returns 0 and leaves the table unchanged. -/
theorem c3_idempotent_dedup_amended_witness :
    insertTransactionsDb
      (insertTransactionsDb []
        [{ date := some "2025-08-12", description := some "UPI-Swiggy Instamart",
           merchant := none, amount := some 326, currency := some "INR",
           transactionType := some "DEBIT", rewardPoints := none,
           cardNumber := some "XXXX XXXX XXXX XX51",
           cardHolderName := some "YAYIN VASHIST", sourceBank := some "SBI",
           statementDate := some "12 Aug 25 to 11 Sep 25",
           category := some "Food", subCategory := some "Delivery",
           parserUsed := some "sbiParser", importId := none }]).1
      [{ date := some "2025-08-12", description := some "UPI-Swiggy Instamart",
         merchant := none, amount := some 326, currency := some "INR",
         transactionType := some "DEBIT", rewardPoints := none,
         cardNumber := some "XXXX XXXX XXXX XX51",
         cardHolderName := some "YAYIN VASHIST", sourceBank := some "SBI",
         statementDate := some "12 Aug 25 to 11 Sep 25",
         category := some "Food", subCategory := some "Delivery",
         parserUsed := some "sbiParser", importId := none }] =
    ((insertTransactionsDb []
        [{ date := some "2025-08-12", description := some "UPI-Swiggy Instamart",
           merchant := none, amount := some 326, currency := some "INR",
           transactionType := some "DEBIT", rewardPoints := none,
           cardNumber := some "XXXX XXXX XXXX XX51",
           cardHolderName := some "YAYIN VASHIST", sourceBank := some "SBI",
           statementDate := some "12 Aug 25 to 11 Sep 25",
           category := some "Food", subCategory := some "Delivery",
           parserUsed := some "sbiParser", importId := none }]).1, 0) :=
  c3_idempotent_dedup_amended [] _ (by decide)

/-- C10: persistence coerces zero-valued numeric fields to NULL.  A
transaction whose amount is 0 (or 0.0) or whose rewardPoints is 0 is stored
with NULL in that column, and a reward summary with 0 in any of its five
point fields is stored with NULL there, because every numeric column is
guarded by a Python truthiness check before conversion. -/
theorem c10_zero_becomes_null (tx : TxRecord) (s : RewardSummaryRecord) :
    (tx.amount = some 0 → (rowOfTx tx).amount = none) ∧
    (tx.rewardPoints = some 0 → (rowOfTx tx).rewardPoints = none) ∧
    (s.openingBalance = some 0 → (rowOfSummary s).openingBalance = none) ∧
    (s.earned = some 0 → (rowOfSummary s).earned = none) ∧
    (s.redeemed = some 0 → (rowOfSummary s).redeemed = none) ∧
    (s.adjustedLapsed = some 0 → (rowOfSummary s).adjustedLapsed = none) ∧
    (s.closingBalance = some 0 → (rowOfSummary s).closingBalance = none) := by
  refine ⟨?_, ?_, ?_, ?_, ?_, ?_, ?_⟩ <;>
    intro h <;>
    simp [rowOfTx, rowOfSummary, pyTruthyRat, pyTruthyInt, h]

/-- C10 witness: a concrete transaction with a 0.0 amount and 0 reward points
and a concrete summary with a 0 redeemed balance. -/
theorem c10_zero_becomes_null_witness :
    (rowOfTx { txAllAbsent with amount := some 0, rewardPoints := some 0 }).amount
        = none ∧
    (rowOfTx { txAllAbsent with amount := some 0, rewardPoints := some 0 }).rewardPoints
        = none ∧
    (rowOfSummary
      { statementDate := some "12 Aug 25", cardNumber := none,
        cardHolderName := some "YAYIN VASHIST", openingBalance := some 1968,
        earned := some 158, redeemed := some 0, adjustedLapsed := some 126,
        closingBalance := some 2000, parserUsed := some "sbiParser",
        importId := none }).redeemed = none :=
  ⟨(c10_zero_becomes_null _
      { statementDate := some "12 Aug 25", cardNumber := none,
        cardHolderName := some "YAYIN VASHIST", openingBalance := some 1968,
        earned := some 158, redeemed := some 0, adjustedLapsed := some 126,
        closingBalance := some 2000, parserUsed := some "sbiParser",
        importId := none }).1 rfl,
    (c10_zero_becomes_null
      { txAllAbsent with amount := some 0, rewardPoints := some 0 }
      { statementDate := some "12 Aug 25", cardNumber := none,
        cardHolderName := some "YAYIN VASHIST", openingBalance := some 1968,
        earned := some 158, redeemed := some 0, adjustedLapsed := some 126,
        closingBalance := some 2000, parserUsed := some "sbiParser",
        importId := none }).2.1 rfl,
    (c10_zero_becomes_null
      { txAllAbsent with amount := some 0, rewardPoints := some 0 }
      { statementDate := some "12 Aug 25", cardNumber := none,
        cardHolderName := some "YAYIN VASHIST", openingBalance := some 1968,
        earned := some 158, redeemed := some 0, adjustedLapsed := some 126,
        closingBalance := some 2000, parserUsed := some "sbiParser",
        importId := none }).2.2.2.2.1 rfl⟩

theorem mem_insertMerchantDesc (x b : String × CatInfo) :
    ∀ l, b ∈ insertMerchantDesc x l → b = x ∨ b ∈ l := by
  intro l
  induction l with
  | nil => intro h; simp [insertMerchantDesc] at h; exact Or.inl h
  | cons hd t ih =>
    intro hmem
    unfold insertMerchantDesc at hmem
    by_cases hle : x.1.length ≤ hd.1.length
    · rw [if_pos hle] at hmem
      rcases List.mem_cons.mp hmem with heq | hmem2
      · exact Or.inr (heq ▸ List.mem_cons_self hd t)
      · rcases ih hmem2 with h1 | h2
        · exact Or.inl h1
        · exact Or.inr (List.mem_cons_of_mem hd h2)
    · rw [if_neg hle] at hmem
      rcases List.mem_cons.mp hmem with heq | hmem2
      · exact Or.inl heq
      · exact Or.inr hmem2

theorem insertMerchantDesc_sorted (x : String × CatInfo) :
    ∀ l, l.Pairwise (fun p q : String × CatInfo => q.1.length ≤ p.1.length) →
      (insertMerchantDesc x l).Pairwise
        (fun p q : String × CatInfo => q.1.length ≤ p.1.length) := by
  intro l
  induction l with
  | nil => intro _; simp [insertMerchantDesc]
  | cons hd t ih =>
    intro hsorted
    rcases List.pairwise_cons.mp hsorted with ⟨hhd, ht⟩
    unfold insertMerchantDesc
    by_cases hle : x.1.length ≤ hd.1.length
    · rw [if_pos hle]
      refine List.pairwise_cons.mpr ⟨?_, ih ht⟩
      intro b hb
      rcases mem_insertMerchantDesc x b t hb with heq | hmem
      · exact heq ▸ hle
      · exact hhd b hmem
    · rw [if_neg hle]
      refine List.pairwise_cons.mpr ⟨?_, hsorted⟩
      intro b hb
      rcases List.mem_cons.mp hb with heq | hmem
      · exact heq ▸ Nat.le_of_lt (Nat.lt_of_not_le hle)
      · exact Nat.le_trans (hhd b hmem) (Nat.le_of_lt (Nat.lt_of_not_le hle))

theorem sortMerchants_go_sorted (l : List (String × CatInfo)) :
    ∀ acc, acc.Pairwise (fun p q : String × CatInfo => q.1.length ≤ p.1.length) →
      (l.foldl (fun acc x => insertMerchantDesc x acc) acc).Pairwise
        (fun p q : String × CatInfo => q.1.length ≤ p.1.length) := by
  induction l with
  | nil => intro acc h; simpa using h
  | cons hd t ih =>
    intro acc h
    exact ih (insertMerchantDesc hd acc) (insertMerchantDesc_sorted hd acc h)

/-- C4: the categorizer tries merchant names longest-first — the sorted table
is ordered by non-increasing name length, so whenever one name is strictly
longer it is tried strictly earlier — and assigns the mapping of the first
merchant in that order whose lowercased name occurs in the lowercased
description; with merchants Amazon ↦ CatA and Amazon Pay ↦ CatB and a
description containing "Amazon Pay purchase", the result is CatB, not CatA. -/
theorem c4_merchant_priority :
    (∀ ms : List (String × CatInfo),
      (sortMerchants ms).Pairwise
        (fun p q : String × CatInfo => q.1.length ≤ p.1.length)) ∧
    (∀ (ms : List (String × CatInfo)) (rules : List CatRule)
        (desc ty : Option String) (m : String × CatInfo),
      (sortMerchants ms).find?
          (fun p => strContains (pyLower (desc.getD "")) (pyLower p.1)) = some m →
      categorizeOne ms rules desc ty = (m.2.category, m.2.subCategory)) ∧
    (categorizeOne
        [("Amazon", ⟨some "CatA", some "SubA"⟩),
         ("Amazon Pay", ⟨some "CatB", some "SubB"⟩)] []
        (some "Order: Amazon Pay purchase 123") (some "DEBIT") =
      (some "CatB", some "SubB") ∧
      (some "CatB", (some "SubB" : Option String)) ≠ (some "CatA", some "SubA")) := by
  refine ⟨?_, ?_, by decide⟩
  · intro ms
    exact sortMerchants_go_sorted ms [] (List.Pairwise.nil)
  · intro ms rules desc ty m hfind
    simp [categorizeOne, hfind]

/-- C4 witness: the first-match clause instantiated at the Amazon / Amazon Pay
table, where the sorted-order first match is the Amazon Pay entry. -/
theorem c4_merchant_priority_witness :
    categorizeOne
        [("Amazon", ⟨some "CatA", some "SubA"⟩),
         ("Amazon Pay", ⟨some "CatB", some "SubB"⟩)] []
        (some "Order: Amazon Pay purchase 123") (some "DEBIT") =
      (some "CatB", some "SubB") :=
  c4_merchant_priority.2.1
    [("Amazon", ⟨some "CatA", some "SubA"⟩),
     ("Amazon Pay", ⟨some "CatB", some "SubB"⟩)] []
    (some "Order: Amazon Pay purchase 123") (some "DEBIT")
    ("Amazon Pay", ⟨some "CatB", some "SubB"⟩) (by decide)

/-- C5: for a transaction matching no configured merchant, the first rule (in
configuration order) whose pattern matches the lowercased description and
whose sub-rule for the transaction type is a mapping supplies the
category/subCategory; if no rule matches with a non-null mapping for the
type, the transaction falls back to "Uncategorized" / "Needs Review". -/
theorem c5_regex_rule_fallback
    (merchants : List (String × CatInfo)) (rules : List CatRule)
    (desc ty : Option String)
    (hm : (sortMerchants merchants).find?
        (fun p => strContains (pyLower (desc.getD "")) (pyLower p.1)) = none) :
    (∀ (r : CatRule) (ci : CatInfo),
      rules.find?
          (fun r => r.patMatches (pyLower (desc.getD "")) &&
            (ruleFor r (pyUpper (ty.getD "DEBIT"))).isSome) = some r →
      ruleFor r (pyUpper (ty.getD "DEBIT")) = some ci →
      categorizeOne merchants rules desc ty = (ci.category, ci.subCategory)) ∧
    (rules.find?
        (fun r => r.patMatches (pyLower (desc.getD "")) &&
          (ruleFor r (pyUpper (ty.getD "DEBIT"))).isSome) = none →
      categorizeOne merchants rules desc ty =
        (some "Uncategorized", some "Needs Review")) := by
  constructor
  · intro r ci hr hci
    simp [categorizeOne, hm, hr, hci]
  · intro hr
    simp [categorizeOne, hm, hr]

/-- C5 witness: a DEBIT-only rule matching "upi".  A DEBIT transaction whose
description matches it gets the rule's mapping; the same description as a
CREDIT transaction finds no rule with a non-null CREDIT mapping and falls
through to "Uncategorized" / "Needs Review". -/
theorem c5_regex_rule_fallback_witness :
    categorizeOne [] [sampleUpiRule] (some "UPI-Swiggy Instamart")
        (some "DEBIT") = (some "Food", some "Online") ∧
    categorizeOne [] [sampleUpiRule] (some "UPI-Swiggy Instamart")
        (some "CREDIT") = (some "Uncategorized", some "Needs Review") :=
  ⟨(c5_regex_rule_fallback [] [sampleUpiRule] (some "UPI-Swiggy Instamart")
        (some "DEBIT") rfl).1 sampleUpiRule ⟨some "Food", some "Online"⟩ rfl rfl,
    (c5_regex_rule_fallback [] [sampleUpiRule] (some "UPI-Swiggy Instamart")
        (some "CREDIT") rfl).2 rfl⟩

/-- C7 counterexample: the claim attributes an optional `"NONE"` 5th token to
the main SBI reward-summary line, but that line is matched by
`^(\d+[ ,]*){5}$`, which admits digits, spaces and commas only: on the line
`"1968 158 2000 126 NONE"` the pattern fails and the scan state is left
untouched (nothing is mapped), while the helper does accept the same line. -/
theorem c7_sbi_reward_orders_counterexample :
    sbiRewardLineMatches (stripCommas "1968 158 2000 126 NONE") = false ∧
    sbiRewardUpdate ⟨none, none, none, none, none⟩ "1968 158 2000 126 NONE" =
      ⟨none, none, none, none, none⟩ ∧
    (sbiHelperLine (some "12 Aug 25 to 11 Sep 25") none none "uuid-1"
        "1968 158 2000 126 NONE").isSome = true := by
  decide

/-- C7 (amended): the main SBI parser reward line is five whitespace-separated
integers with no `"NONE"` sentinel (a line with `NONE` in 5th position is not
recognised on this path); when it matches and splits into five ints they are
unpacked as `opening, earned, redeemed, closing, lapsed`, so the 4th number
becomes `closingBalance` and the 5th `adjustedLapsed` in the emitted summary.
The separate rewards-helper scan maps its five tokens as
`opening, earned, redeemed, adjusted, closing`, with a 5th token `NONE`
mapped to closing balance 0, and stamps the summary with its own
synthesized identifier for the statement run. -/
theorem c7_sbi_reward_orders_amended :
    (∀ (st : SbiRewardState) (line : String) (o e r c l : Int),
      sbiRewardLineMatches (stripCommas line) = true →
      lineIntParts line = some [o, e, r, c, l] →
      sbiRewardUpdate st line = ⟨some o, some e, some r, some c, some l⟩ ∧
      ∀ sd cn h iid,
        (mkSbiMainSummary (sbiRewardUpdate st line) sd cn h iid).closingBalance
            = some c ∧
        (mkSbiMainSummary (sbiRewardUpdate st line) sd cn h iid).adjustedLapsed
            = some l) ∧
    (∀ (p : String) (card holder : Option String) (fresh line : String)
        (t0 t1 t2 t3 t4 : String) (o e r a : Int),
      pySplit (pyStrip line) = [t0, t1, t2, t3, t4] →
      pyIsDigitStr t0 = true → pyIsDigitStr t1 = true →
      pyIntOfString t0 = some o → pyIntOfString t1 = some e →
      pyIntOfString t2 = some r → pyIntOfString t3 = some a →
      (pyUpper t4 = "NONE" →
        sbiHelperLine (some p) card holder fresh line =
          some { statementDate := some (pyStrip (pySplitSubLast p "to")),
                 cardNumber := card, cardHolderName := holder,
                 openingBalance := some o, earned := some e, redeemed := some r,
                 adjustedLapsed := some a, closingBalance := some 0,
                 parserUsed := some "sbiParser", importId := some fresh }) ∧
      (∀ cb : Int, pyUpper t4 ≠ "NONE" → pyIntOfString t4 = some cb →
        sbiHelperLine (some p) card holder fresh line =
          some { statementDate := some (pyStrip (pySplitSubLast p "to")),
                 cardNumber := card, cardHolderName := holder,
                 openingBalance := some o, earned := some e, redeemed := some r,
                 adjustedLapsed := some a, closingBalance := some cb,
                 parserUsed := some "sbiParser", importId := some fresh })) := by
  constructor
  · intro st line o e r c l hmatch hparts
    have hupd : sbiRewardUpdate st line = ⟨some o, some e, some r, some c, some l⟩ := by
      simp [sbiRewardUpdate, hmatch, hparts]
    refine ⟨hupd, ?_⟩
    intro sd cn h iid
    rw [hupd]
    exact ⟨rfl, rfl⟩
  · intro p card holder fresh line t0 t1 t2 t3 t4 o e r a hsplit hd0 hd1 hi0 hi1 hi2 hi3
    constructor
    · intro hnone
      simp [sbiHelperLine, hsplit, hd0, hd1, hi0, hi1, hi2, hi3, hnone]
    · intro cb hnotnone hi4
      simp [sbiHelperLine, hsplit, hd0, hd1, hi0, hi1, hi2, hi3, hnotnone, hi4]

/-- C7 witness: the amended theorem at a concrete five-integer line for the
main parser and at the `NONE` line from the helper docstring. -/
theorem c7_sbi_reward_orders_amended_witness :
    (sbiRewardUpdate ⟨none, none, none, none, none⟩ "10 20 5 25 3" =
        ⟨some 10, some 20, some 5, some 25, some 3⟩ ∧
      (mkSbiMainSummary
          (sbiRewardUpdate ⟨none, none, none, none, none⟩ "10 20 5 25 3")
          (some "12 Aug 25 to 11 Sep 25") none none
          (some "import-1")).closingBalance = some 25 ∧
      (mkSbiMainSummary
          (sbiRewardUpdate ⟨none, none, none, none, none⟩ "10 20 5 25 3")
          (some "12 Aug 25 to 11 Sep 25") none none
          (some "import-1")).adjustedLapsed = some 3) ∧
    sbiHelperLine (some "12 Aug 25 to 11 Sep 25") none none "uuid-1"
        "1968 158 2000 126 NONE" =
      some { statementDate :=
               some (pyStrip (pySplitSubLast "12 Aug 25 to 11 Sep 25" "to")),
             cardNumber := none, cardHolderName := none,
             openingBalance := some 1968, earned := some 158,
             redeemed := some 2000, adjustedLapsed := some 126,
             closingBalance := some 0, parserUsed := some "sbiParser",
             importId := some "uuid-1" } :=
  ⟨by
      obtain ⟨h1, h2⟩ :=
        c7_sbi_reward_orders_amended.1 ⟨none, none, none, none, none⟩
          "10 20 5 25 3" 10 20 5 25 3 (by decide) (by decide)
      exact ⟨h1, h2 (some "12 Aug 25 to 11 Sep 25") none none (some "import-1")⟩,
    (c7_sbi_reward_orders_amended.2 "12 Aug 25 to 11 Sep 25" none none "uuid-1"
        "1968 158 2000 126 NONE" "1968" "158" "2000" "126" "NONE"
        1968 158 2000 126 (by decide) (by decide) (by decide) (by decide)
        (by decide) (by decide) (by decide)).1 (by decide)⟩

theorem stripCommas_icici_amount : stripCommas "5,552.36" = "5552.36" := by decide

theorem ratOfDecimalStr_icici_amount :
    ratOfDecimalStr "5552.36" = some (5552.36 : Rat) := by
  have hp : decimalParts "5552.36" = some (['5', '5', '5', '2'], ['3', '6']) := by
    decide
  have e1 : natFromDigits ['5', '5', '5', '2'] = 5552 := by decide
  have e2 : natFromDigits ['3', '6'] = 36 := by decide
  unfold ratOfDecimalStr
  rw [hp]
  simp only [Option.map_some', e1, e2, List.length_cons, List.length_nil]
  norm_num

/-- C8: the ICICI line `"10/08/2025 11770955856 Myntra 111 5,552.36 CR"`
yields a transaction with amount 5552.36 and type CREDIT; the same line
without the trailing `CR` yields type DEBIT; and in general the emitted type
is CREDIT exactly when the optional trailing `CR` group matched. -/
theorem c8_icici_cr_flag :
    iciciTxOfLine "6528XXXXXXXX1005" none
        "10/08/2025 11770955856 Myntra 111 5,552.36 CR" =
      some { date := "10/08/2025", referenceNumber := "11770955856",
             description := "Myntra", merchantCode := "111",
             amount := some (5552.36 : Rat), currency := "INR",
             transactionType := "CREDIT", cardNumber := "6528XXXXXXXX1005",
             cardHolderName := none, sourceBank := "ICICI",
             statementDate := none, category := none, subCategory := none,
             parserUsed := "iciciParser", importId := none } ∧
    iciciTxOfLine "6528XXXXXXXX1005" none
        "10/08/2025 11770955856 Myntra 111 5,552.36" =
      some { date := "10/08/2025", referenceNumber := "11770955856",
             description := "Myntra", merchantCode := "111",
             amount := some (5552.36 : Rat), currency := "INR",
             transactionType := "DEBIT", cardNumber := "6528XXXXXXXX1005",
             cardHolderName := none, sourceBank := "ICICI",
             statementDate := none, category := none, subCategory := none,
             parserUsed := "iciciParser", importId := none } ∧
    ∀ (card : String) (sd : Option String) (line : String) (g : IciciGroups),
      iciciMatchLine line = some g →
      (iciciTxOfLine card sd line).map IciciTx.transactionType =
        some (if g.crFlag then "CREDIT" else "DEBIT") := by
  refine ⟨?_, ?_, ?_⟩
  · have hm : iciciMatchLine "10/08/2025 11770955856 Myntra 111 5,552.36 CR" =
        some ⟨"10/08/2025", "11770955856", "Myntra", "111", "5,552.36", true⟩ := by
      decide
    simp [iciciTxOfLine, hm, stripCommas_icici_amount, ratOfDecimalStr_icici_amount]
    decide
  · have hm : iciciMatchLine "10/08/2025 11770955856 Myntra 111 5,552.36" =
        some ⟨"10/08/2025", "11770955856", "Myntra", "111", "5,552.36", false⟩ := by
      decide
    simp [iciciTxOfLine, hm, stripCommas_icici_amount, ratOfDecimalStr_icici_amount]
    decide
  · intro card sd line g hg
    simp [iciciTxOfLine, hg]

/-- C8 witness: the CR-iff clause applied at the concrete CR line. -/
theorem c8_icici_cr_flag_witness :
    (iciciTxOfLine "6528XXXXXXXX1005" none
        "10/08/2025 11770955856 Myntra 111 5,552.36 CR").map
      IciciTx.transactionType = some "CREDIT" :=
  c8_icici_cr_flag.2.2 "6528XXXXXXXX1005" none
    "10/08/2025 11770955856 Myntra 111 5,552.36 CR"
    ⟨"10/08/2025", "11770955856", "Myntra", "111", "5,552.36", true⟩ (by decide)

/-- C6: on a statement where the second page has no extractable text, the
page loop of the HDFC/SBI/ICICI/generic parsers skips that page and still
yields the lines of the remaining pages, but the AU parser's page loop —
which calls `.splitlines()` on the page text without a `None` guard — raises
`AttributeError` and aborts the parse instead of skipping the page, contrary
to the claimed failure semantics. -/
theorem c6_au_page_none_raises :
    auCollectAllText [some "Hello, YAYIN VASHIST", none, some "Your Transactions"] =
      .error "AttributeError" ∧
    pagesLinesSkippingBlank
        [some "Hello, YAYIN VASHIST", none, some "Your Transactions"] =
      ["Hello, YAYIN VASHIST", "Your Transactions"] ∧
    ∀ pages : PdfPages, none ∈ pages → ∃ e, auCollectAllText pages = .error e := by
  refine ⟨rfl, by decide, ?_⟩
  intro pages hmem
  induction pages with
  | nil => simp at hmem
  | cons p rest ih =>
    match p with
    | none => exact ⟨"AttributeError", rfl⟩
    | some t =>
      have hrest : none ∈ rest := by
        rcases List.mem_cons.mp hmem with h | h
        · exact absurd h (by simp)
        · exact h
      obtain ⟨e, he⟩ := ih hrest
      exact ⟨e, by simp [auCollectAllText, he]⟩

theorem hdfcStepStmt_primary (st : HdfcState) (line : String) :
    (hdfcStepStmt st line).primaryCardHolder = st.primaryCardHolder := by
  unfold hdfcStepStmt
  cases Rx.runSearch hdfcStmtDatePat line <;> rfl

theorem hdfcStepTx_primary (st : HdfcState) (line : String) :
    (hdfcStepTx st line).primaryCardHolder = st.primaryCardHolder := by
  unfold hdfcStepTx
  cases Rx.runAtStart hdfcTxPat line with
  | none => rfl
  | some g => cases g; rfl

theorem hdfcStepRewards_primary (st : HdfcState) (line : String) :
    (hdfcStepRewards st line).primaryCardHolder = st.primaryCardHolder := by
  unfold hdfcStepRewards
  repeat' split
  all_goals rfl

theorem hdfcStepName_primary_of_not_candidate (st : HdfcState) (line : String)
    (h : ¬(looksLikeCardholder line = true ∧ pyIsUpper line = true)) :
    (hdfcStepName st line).primaryCardHolder = st.primaryCardHolder := by
  unfold hdfcStepName
  by_cases hl : looksLikeCardholder line = true
  · rw [if_pos hl]
    have hu : pyIsUpper line = false := by
      cases hup : pyIsUpper line
      · rfl
      · exact absurd ⟨hl, hup⟩ h
    simp [hu]
  · simp [hl]

theorem hdfcStep_primary_of_not_candidate (st : HdfcState) (rawLine : String)
    (h : ¬(looksLikeCardholder (pyStrip rawLine) = true ∧
            pyIsUpper (pyStrip rawLine) = true)) :
    (hdfcStep st rawLine).primaryCardHolder = st.primaryCardHolder := by
  unfold hdfcStep
  rw [hdfcStepRewards_primary, hdfcStepTx_primary,
    hdfcStepName_primary_of_not_candidate _ _ h, hdfcStepStmt_primary]

theorem hdfcScan_primary_none (lines : List String) :
    ∀ st : HdfcState,
      (∀ l ∈ lines, ¬(looksLikeCardholder (pyStrip l) = true ∧
          pyIsUpper (pyStrip l) = true)) →
      st.primaryCardHolder = none →
      (lines.foldl hdfcStep st).primaryCardHolder = none := by
  induction lines with
  | nil => intro st _ hst; simpa using hst
  | cons l rest ih =>
    intro st hall hst
    have hstep : (hdfcStep st l).primaryCardHolder = none := by
      rw [hdfcStep_primary_of_not_candidate st l (hall l (List.mem_cons_self l rest))]
      exact hst
    exact ih (hdfcStep st l)
      (fun x hx => hall x (List.mem_cons_of_mem _ hx)) hstep

theorem hdfcSummaries_ne_nil (st : HdfcState) :
    hdfcSummaries st ≠ [] ↔
      (st.opening.isSome = true ∧ st.earned.isSome = true ∧
        st.redeemed.isSome = true ∧ st.adjusted.isSome = true ∧
        st.closing.isSome = true) := by
  rcases st with ⟨cur, prim, sd, o, e, r, a, c, txs⟩
  cases o <;> cases e <;> cases r <;> cases a <;> cases c <;>
    simp [hdfcSummaries]

theorem hdfcSummaries_fallback_name (st : HdfcState)
    (hprim : st.primaryCardHolder = none) :
    ∀ s ∈ hdfcSummaries st, s.cardHolderName = some "PRIMARY CARDHOLDER" := by
  intro s hs
  rcases st with ⟨cur, prim, sd, o, e, r, a, c, txs⟩
  cases prim with
  | some p => simp at hprim
  | none =>
    cases o <;> cases e <;> cases r <;> cases a <;> cases c <;>
      simp_all [hdfcSummaries]

/-- C9: the HDFC parser emits a reward summary exactly when all five of
opening, earned, redeemed, adjusted and closing were resolved during the
scan; and when no line of the document is an ALL-CAPS cardholder candidate,
every emitted summary carries the literal fallback name
`"PRIMARY CARDHOLDER"`. -/
theorem c9_hdfc_summary_emission (lines : List String) :
    ((hdfcParse lines).2 ≠ [] ↔
      ((hdfcScan lines).opening.isSome = true ∧
        (hdfcScan lines).earned.isSome = true ∧
        (hdfcScan lines).redeemed.isSome = true ∧
        (hdfcScan lines).adjusted.isSome = true ∧
        (hdfcScan lines).closing.isSome = true)) ∧
    ((∀ l ∈ lines, ¬(looksLikeCardholder (pyStrip l) = true ∧
        pyIsUpper (pyStrip l) = true)) →
      ∀ s ∈ (hdfcParse lines).2, s.cardHolderName = some "PRIMARY CARDHOLDER") := by
  constructor
  · exact hdfcSummaries_ne_nil (hdfcScan lines)
  · intro hall
    have hprim : (hdfcScan lines).primaryCardHolder = none :=
      hdfcScan_primary_none lines hdfcInit hall rfl
    exact hdfcSummaries_fallback_name (hdfcScan lines) hprim

/-- C9 witness: a document whose lines resolve all five reward fields and
contain no ALL-CAPS cardholder candidate; the emitted summary exists and
carries the fallback name. -/
theorem c9_hdfc_summary_emission_witness :
    ((hdfcParse ["500 Points Earned", "100 200 50 10"]).2 ≠ [] ↔
      ((hdfcScan ["500 Points Earned", "100 200 50 10"]).opening.isSome = true ∧
        (hdfcScan ["500 Points Earned", "100 200 50 10"]).earned.isSome = true ∧
        (hdfcScan ["500 Points Earned", "100 200 50 10"]).redeemed.isSome = true ∧
        (hdfcScan ["500 Points Earned", "100 200 50 10"]).adjusted.isSome = true ∧
        (hdfcScan ["500 Points Earned", "100 200 50 10"]).closing.isSome = true)) ∧
    ∀ s ∈ (hdfcParse ["500 Points Earned", "100 200 50 10"]).2,
      s.cardHolderName = some "PRIMARY CARDHOLDER" :=
  ⟨(c9_hdfc_summary_emission ["500 Points Earned", "100 200 50 10"]).1,
    (c9_hdfc_summary_emission ["500 Points Earned", "100 200 50 10"]).2
      (by decide)⟩

end SpendTracker
